import Mathlib

/-!
Verification of the data-normalization core and relay service of the
Live-game-stats repository.

The JavaScript source is shallowly embedded: loosely-typed JSON values are
modelled by the inductive `JVal`, JavaScript numbers by `JNum` (an integer or
NaN; fractional literals, infinities and boxed-object `ToPrimitive` corner
cases are outside the modelled input domain), and statements that can raise a
runtime `TypeError` / `ReferenceError` are modelled in `Except String`.
Property reads `x.k` on a possibly-null base use the throwing accessor
`JVal.getE`; reads whose base is already known non-nullish (because a guard or
a default like `?? {}` precedes them in the source) use the total `JVal.getP`,
mirroring exactly where the JavaScript engine could and could not throw.
`===` on two non-primitive values is modelled as `false` (reference
inequality of separately constructed objects).
-/

/-- A JavaScript number: an integer or NaN. -/
inductive JNum where
  | nan : JNum
  | int : Int → JNum
deriving Repr, DecidableEq

/-- A JavaScript/JSON runtime value. -/
inductive JVal where
  | undefined : JVal
  | null : JVal
  | bool : Bool → JVal
  | num : JNum → JVal
  | str : String → JVal
  | arr : List JVal → JVal
  | obj : List (String × JVal) → JVal

namespace JVal

/-- JavaScript truthiness. -/
def truthy : JVal → Bool
  | .undefined => false
  | .null => false
  | .bool b => b
  | .num (.int n) => n != 0
  | .num .nan => false
  | .str s => s != ""
  | .arr _ => true
  | .obj _ => true

/-- Nullish (`null` or `undefined`), the values `??` skips and property reads throw on. -/
def isNullish : JVal → Bool
  | .undefined => true
  | .null => true
  | _ => false

/-- Is the value an array (`Array.isArray`). -/
def isArr : JVal → Bool
  | .arr _ => true
  | _ => false

/-- Total property read: field lookup on objects, `undefined` everywhere else.
Only used where the base is known non-nullish. -/
def getP (v : JVal) (k : String) : JVal :=
  match v with
  | .obj fs =>
    match fs.find? (fun p => p.1 == k) with
    | some p => p.2
    | none => .undefined
  | _ => .undefined

/-- Property read `v.k` with JavaScript exception semantics: throws on a
nullish base. -/
def getE (v : JVal) (k : String) : Except String JVal :=
  match v with
  | .undefined => .error "TypeError: cannot read properties of undefined"
  | .null => .error "TypeError: cannot read properties of null"
  | w => .ok (w.getP k)

/-- Total index read `v[i]` for a known non-nullish base. -/
def idxP (v : JVal) (i : Nat) : JVal :=
  match v with
  | .arr l => l.getD i .undefined
  | .obj fs =>
    match fs.find? (fun p => p.1 == toString i) with
    | some p => p.2
    | none => .undefined
  | _ => .undefined

/-- Index read `v[i]` with JavaScript exception semantics. -/
def idxE (v : JVal) (i : Nat) : Except String JVal :=
  match v with
  | .undefined => .error "TypeError: cannot read properties of undefined"
  | .null => .error "TypeError: cannot read properties of null"
  | w => .ok (w.idxP i)

end JVal

/-- JavaScript `a || b` on already-evaluated operands. -/
def jsOr (a b : JVal) : JVal := if a.truthy then a else b

/-- JavaScript `a ?? b` on already-evaluated operands. -/
def jsCoal (a b : JVal) : JVal := if a.isNullish then b else a

/-! Character-list implementations of the string operations the source uses
(`toLowerCase`, `trim`, `split`, `includes`, digit parsing), written so that
they compute by structural recursion. -/

/-- ASCII-faithful `toLowerCase`. -/
def strLower (s : String) : String := ⟨s.data.map Char.toLower⟩

/-- `trimStart()`. -/
def strTrimLeft (s : String) : String := ⟨s.data.dropWhile Char.isWhitespace⟩

/-- `trim()`. -/
def strTrim (s : String) : String :=
  ⟨((s.data.dropWhile Char.isWhitespace).reverse.dropWhile Char.isWhitespace).reverse⟩

/-- Numeric value of a list of decimal digits. -/
def digitsVal (l : List Char) : Nat :=
  l.foldl (fun acc c => acc * 10 + (c.toNat - 48)) 0

/-- Split a character list on a separator character. -/
def splitOnCharAux (c : Char) : List Char → List Char → List String
  | [], acc => [String.mk acc.reverse]
  | x :: xs, acc =>
    if x == c then String.mk acc.reverse :: splitOnCharAux c xs []
    else splitOnCharAux c xs (x :: acc)

/-- `s.split(c)` for a one-character separator. -/
def splitOnChar (c : Char) (s : String) : List String := splitOnCharAux c s.data []

/-- Is `pat` a prefix of the list. -/
def charsPrefixB : List Char → List Char → Bool
  | [], _ => true
  | _ :: _, [] => false
  | a :: as, b :: bs => a == b && charsPrefixB as bs

/-- Does `pat` occur as a contiguous sublist. -/
def charsInfixB (pat : List Char) : List Char → Bool
  | [] => charsPrefixB pat []
  | l@(_ :: rest) => charsPrefixB pat l || charsInfixB pat rest

/-- `String()` applied to a `JNum`. -/
def jnumToString : JNum → String
  | .nan => "NaN"
  | .int n => if n < 0 then "-" ++ toString n.natAbs else toString n.natAbs

mutual

/-- JavaScript `String(v)` / `ToString`. -/
def jsToString : JVal → String
  | .undefined => "undefined"
  | .null => "null"
  | .bool true => "true"
  | .bool false => "false"
  | .num n => jnumToString n
  | .str s => s
  | .obj _ => "[object Object]"
  | .arr l => jsArrToString l

/-- `Array.prototype.toString`: elements joined with commas, nullish
elements rendered as the empty string. -/
def jsArrToString : List JVal → String
  | [] => ""
  | [.null] => ""
  | [.undefined] => ""
  | [v] => jsToString v
  | .null :: vs => "," ++ jsArrToString vs
  | .undefined :: vs => "," ++ jsArrToString vs
  | v :: vs => jsToString v ++ "," ++ jsArrToString vs

end

/-- `Array.prototype.join(sep)`. -/
def jsJoin (l : List JVal) (sep : String) : String :=
  String.intercalate sep (l.map fun v =>
    match v with
    | .null => ""
    | .undefined => ""
    | w => jsToString w)

/-- `Number()` applied to a string (integer literals only; other numeric
literal forms are outside the modelled domain and map to NaN). -/
def strToNumber (s : String) : JNum :=
  let t := (strTrim s).data
  if t.isEmpty then .int 0
  else
    let (sign, digits) :=
      match t with
      | '-' :: rest => ((-1 : Int), rest)
      | '+' :: rest => ((1 : Int), rest)
      | _ => ((1 : Int), t)
    if !digits.isEmpty && digits.all Char.isDigit then
      .int (sign * digitsVal digits)
    else .nan

/-- JavaScript `Number(v)` / `ToNumber`. -/
def jsToNumber : JVal → JNum
  | .undefined => .nan
  | .null => .int 0
  | .bool true => .int 1
  | .bool false => .int 0
  | .num n => n
  | .str s => strToNumber s
  | .arr l => strToNumber (jsArrToString l)
  | .obj _ => .nan

/-- `parseInt(s, 10)`: leading whitespace, optional sign, longest digit
prefix; NaN when no digits. -/
def jsParseInt (s : String) : JNum :=
  let t := (strTrimLeft s).data
  let (sign, rest) :=
    match t with
    | '-' :: r => ((-1 : Int), r)
    | '+' :: r => ((1 : Int), r)
    | _ => ((1 : Int), t)
  let digits := rest.takeWhile Char.isDigit
  if digits.isEmpty then .nan else .int (sign * digitsVal digits)

/-- JavaScript strict equality `===`; `NaN === NaN` is false and two
separately constructed objects/arrays compare by reference, modelled `false`. -/
def jsStrictEq : JVal → JVal → Bool
  | .undefined, .undefined => true
  | .null, .null => true
  | .bool a, .bool b => a == b
  | .num (.int a), .num (.int b) => a == b
  | .str a, .str b => a == b
  | _, _ => false

/-- `v.toLowerCase()` with JavaScript exception semantics (only strings have
the method). -/
def jsToLowerCaseE : JVal → Except String String
  | .str s => .ok (strLower s)
  | .undefined => .error "TypeError: cannot read properties of undefined"
  | .null => .error "TypeError: cannot read properties of null"
  | _ => .error "TypeError: toLowerCase is not a function"

/-- `s.includes(pat)` for strings. -/
def strIncludes (s pat : String) : Bool := charsInfixB pat.data s.data

/-- `Array.prototype.find` body over a list, with a predicate that may throw. -/
def jsFindList (p : JVal → Except String Bool) : List JVal → Except String JVal
  | [] => .ok .undefined
  | v :: vs => (p v).bind fun b => if b then .ok v else jsFindList p vs

/-- `v.find(p)` with JavaScript exception semantics (only arrays have it here). -/
def jsFindE (v : JVal) (p : JVal → Except String Bool) : Except String JVal :=
  match v with
  | .arr l => jsFindList p l
  | _ => .error "TypeError: find is not a function"

/-- Sequential `Array.prototype.map` with a body that may throw. -/
def exceptMapM {α β : Type} (f : α → Except String β) : List α → Except String (List β)
  | [] => .ok []
  | a :: as => (f a).bind fun b => (exceptMapM f as).bind fun bs => .ok (b :: bs)

theorem ebind_ok {ε α β : Type} {x : Except ε α} {f : α → Except ε β} {b : β}
    (h : x.bind f = .ok b) : ∃ a, x = .ok a ∧ f a = .ok b := by
  cases x with
  | error e => simp [Except.bind] at h
  | ok a => exact ⟨a, rfl, h⟩

theorem exceptMapM_ok_mem {α β : Type} {f : α → Except String β} {l : List α}
    {bs : List β} (h : exceptMapM f l = .ok bs) :
    ∀ b ∈ bs, ∃ a ∈ l, f a = .ok b := by
  induction l generalizing bs with
  | nil =>
    simp only [exceptMapM] at h
    cases h
    intro b hb
    simp at hb
  | cons a as ih =>
    simp only [exceptMapM] at h
    obtain ⟨b0, hb0, h⟩ := ebind_ok h
    obtain ⟨bs0, hbs0, h⟩ := ebind_ok h
    cases h
    intro b hb
    rcases List.mem_cons.mp hb with rfl | hb
    · exact ⟨a, List.mem_cons_self a as, hb0⟩
    · obtain ⟨a', ha', hfa⟩ := ih hbs0 b hb
      exact ⟨a', List.mem_cons_of_mem _ ha', hfa⟩

theorem exceptMapM_ok_length {α β : Type} {f : α → Except String β} {l : List α}
    {bs : List β} (h : exceptMapM f l = .ok bs) : bs.length = l.length := by
  induction l generalizing bs with
  | nil =>
    simp only [exceptMapM] at h
    cases h
    rfl
  | cons a as ih =>
    simp only [exceptMapM] at h
    obtain ⟨b0, _, h⟩ := ebind_ok h
    obtain ⟨bs0, hbs0, h⟩ := ebind_ok h
    cases h
    simp [ih hbs0]

theorem exceptMapM_ok_of_forall {α β : Type} {f : α → Except String β} {l : List α}
    (h : ∀ a ∈ l, ∃ b, f a = .ok b) : ∃ bs, exceptMapM f l = .ok bs := by
  induction l with
  | nil => exact ⟨[], rfl⟩
  | cons a as ih =>
    obtain ⟨b, hb⟩ := h a (List.mem_cons_self a as)
    obtain ⟨bs, hbs⟩ := ih (fun x hx => h x (List.mem_cons_of_mem _ hx))
    exact ⟨b :: bs, by simp only [exceptMapM, hb, hbs, Except.bind]⟩

/-! ## The unified Game data model produced by the normalizers -/

/-- A formatted leader entry `{ name, stat }`. -/
structure LeaderR where
  name : JVal
  stat : JVal

/-- The per-team part of a normalized game. -/
structure TeamResult where
  id : JVal
  tricode : JVal
  name : JVal
  logo : JVal
  score : JNum
  wins : JVal
  losses : JVal

/-- The unified game representation every normalizer produces. `leaders` is
`none` for the JavaScript value `null` and `some (home, away)` for a
`{home, away}` pair. -/
structure Game where
  id : JVal
  status : JVal
  statusCode : JNum
  clock : JVal
  isLive : Bool
  home : TeamResult
  away : TeamResult
  leaders : Option (Option LeaderR × Option LeaderR)

/-! ## Live normalizer (`normalizeLiveGames` and `formatLeader`) -/

/-- `formatLeader(leader)` from the live path: tolerant leader formatting,
total because every access is behind a truthiness guard. -/
def formatLeader (leader0 : JVal) : Option LeaderR :=
  if !leader0.truthy then none
  else
    let leader := if leader0.isArr then jsOr (leader0.idxP 0) .null else leader0
    if !leader.truthy then none
    else
      let fn := leader.getP "firstName"
      let ln := leader.getP "lastName"
      let nameChain :=
        jsOr (leader.getP "name")
          (jsOr (if (jsOr fn ln).truthy then
                   .str (strTrim (jsToString (jsOr fn (.str "")) ++ " " ++
                          jsToString (jsOr ln (.str ""))))
                 else .null)
            (jsOr (leader.getP "playerName")
              (jsOr (leader.getP "personFullName")
                (jsOr (leader.getP "player") (.str "")))))
      let pts :=
        jsCoal (leader.getP "points")
          (jsCoal (leader.getP "pts")
            (jsCoal (leader.getP "PTS")
              (jsCoal (leader.getP "pointsScored") .null)))
      let stat : JVal :=
        if !pts.isNullish then .str (jsToString pts ++ " PTS")
        else
          match leader.getP "stat" with
          | .str s => .str s
          | .arr l => .str (jsJoin l ", ")
          | _ => .str ""
      some ⟨jsOr nameChain (.str ""), jsOr stat (.str "")⟩

/-- `(game.period && (game.period.current ?? game.period)) ?? game.period ?? ''`. -/
def livePeriod (game : JVal) : JVal :=
  let p := game.getP "period"
  let x := if p.truthy then jsCoal (p.getP "current") p else p
  jsCoal x (jsCoal p (.str ""))

/-- `Number(t.score ?? t.points ?? 0)`, the live-path score resolution. -/
def liveTeamScore (t : JVal) : JNum :=
  jsToNumber (jsCoal (t.getP "score") (jsCoal (t.getP "points") (.num (.int 0))))

/-- The live-path team object built from a (non-nullish) provider team value. -/
def liveTeam (t : JVal) : TeamResult :=
  { id := jsCoal (t.getP "teamId") (jsCoal (t.getP "team_id")
            (jsCoal (t.getP "teamId") .null)),
    tricode := jsCoal (t.getP "teamTricode") (jsCoal (t.getP "tricode")
                 (jsCoal (t.getP "triCode") .null)),
    name := jsCoal (t.getP "teamName") (jsCoal (t.getP "nickname")
              (jsCoal (t.getP "fullName") (.str ""))),
    logo := .undefined,
    score := liveTeamScore t,
    wins := jsCoal (t.getP "wins") (jsCoal (t.getP "win") .null),
    losses := jsCoal (t.getP "losses") (jsCoal (t.getP "loss") .null) }

/-- The live-path leaders value `game.gameLeaders ?? game.leaders ?? null`. -/
def liveLeadersVal (game : JVal) : JVal :=
  jsCoal (game.getP "gameLeaders") (jsCoal (game.getP "leaders") .null)

/-- The body of the live normalizer's `map` callback for a non-nullish record. -/
def mkLiveGame (game : JVal) : Game :=
  let period := livePeriod game
  let clockV := jsCoal (game.getP "gameClock") (jsCoal (game.getP "clock") (.str ""))
  let home := jsCoal (game.getP "homeTeam") (jsCoal (game.getP "hTeam")
                (jsCoal (game.getP "home") (.obj [])))
  let away := jsCoal (game.getP "awayTeam") (jsCoal (game.getP "vTeam")
                (jsCoal (game.getP "away") (.obj [])))
  let leaders := liveLeadersVal game
  let statusVal := jsToNumber (jsCoal (game.getP "gameStatus")
                     (jsCoal (game.getP "status") (.num (.int 1))))
  let statusText := jsCoal (game.getP "gameStatusText")
                      (jsCoal (game.getP "statusText") (.str ""))
  { id := jsCoal (game.getP "gameId") (jsCoal (game.getP "game_id")
            (.str (jsToString (jsOr (game.getP "gameCode") (.str ""))))),
    status := statusText,
    statusCode := statusVal,
    clock := if statusVal = JNum.int 2 then
               .str ("Q" ++ jsToString period ++ " " ++ jsToString clockV)
             else statusText,
    isLive := decide (statusVal = JNum.int 2),
    home := liveTeam home,
    away := liveTeam away,
    leaders :=
      if leaders.truthy then
        some (formatLeader (jsCoal (leaders.getP "homeLeaders")
                (jsCoal (leaders.getP "home") (jsCoal (leaders.getP "homeLeader") .null))),
              formatLeader (jsCoal (leaders.getP "awayLeaders")
                (jsCoal (leaders.getP "away") (jsCoal (leaders.getP "awayLeader") .null))))
      else none }

/-- One element of the live normalizer's `map`: a nullish record throws at its
first property read, any other record normalizes totally. -/
def normalizeLiveGame (game : JVal) : Except String Game :=
  match game with
  | .undefined => .error "TypeError: cannot read properties of undefined"
  | .null => .error "TypeError: cannot read properties of null"
  | g => .ok (mkLiveGame g)

/-- `normalizeLiveGames(games)`: `(games || []).map(...)`; calling `.map` on a
truthy non-array throws. -/
def normalizeLiveGames (games : JVal) : Except String (List Game) :=
  match jsOr games (.arr []) with
  | .arr l => exceptMapM normalizeLiveGame l
  | _ => .error "TypeError: games.map is not a function"

/-! ## ESPN normalizer (`normalizeESPNGames`) -/

/-- Status-code mapping from an ESPN `status.type.state` value:
`'in' -> 2`, `'post' -> 3`, anything else `1`. -/
def espnStatusCode (state : JVal) : JNum :=
  if jsStrictEq state (.str "in") then .int 2
  else if jsStrictEq state (.str "post") then .int 3
  else .int 1

/-- The `try { ... } catch` block of the ESPN leader parsing, as a computation
that either finishes with the home leader (the away assignment never runs to
completion, see below) or throws; a thrown error carries the home leader
assigned before the throw, because the surrounding `catch` only logs and the
mutated `homeLeader` binding survives. The `stat: awayLdr.displayValue` line of
the source references the undefined name `awayLdr` (instead of
`awayLdrParams`), so whenever the away leader would be assigned a
`ReferenceError` is thrown instead; consequently the away leader is never
assigned. -/
def espnLeadersTry (comp home away : JVal) :
    Except (String × Option LeaderR) (Option LeaderR) :=
  match comp.getE "leaders" with
  | .error e => .error (e, none)
  | .ok leadersV =>
    if !leadersV.truthy then .ok none
    else
      match jsFindE leadersV (fun c =>
          (c.getE "name").bind fun nm =>
          (jsToLowerCaseE nm).bind fun low =>
          if low == "points" then .ok true
          else (c.getE "shortDisplayName").map fun sdn => jsStrictEq sdn (.str "Pts")) with
      | .error e => .error (e, none)
      | .ok pointsCat =>
        if !pointsCat.truthy then .ok none
        else
          let catLdrs := pointsCat.getP "leaders"
          if !catLdrs.truthy then .ok none
          else
            match jsFindE catLdrs (fun l =>
                (l.getE "team").bind fun lt =>
                (lt.getE "id").bind fun lid =>
                (home.getE "team").bind fun ht =>
                (ht.getE "id").map fun hid => jsStrictEq lid hid) with
            | .error e => .error (e, none)
            | .ok homeLdrParams =>
              match jsFindE catLdrs (fun l =>
                  (l.getE "team").bind fun lt =>
                  (lt.getE "id").bind fun lid =>
                  (away.getE "team").bind fun at0 =>
                  (at0.getE "id").map fun aid => jsStrictEq lid aid) with
              | .error e => .error (e, none)
              | .ok awayLdrParams =>
                let homeLeader : Option LeaderR :=
                  if homeLdrParams.truthy then
                    let ath := homeLdrParams.getP "athlete"
                    if ath.truthy then
                      some ⟨ath.getP "shortName", homeLdrParams.getP "displayValue"⟩
                    else none
                  else none
                if awayLdrParams.truthy then
                  let ath := awayLdrParams.getP "athlete"
                  if ath.truthy then
                    .error ("ReferenceError: awayLdr is not defined", homeLeader)
                  else .ok homeLeader
                else .ok homeLeader

/-- The leader pair observed after the `try`/`catch`: the home leader computed
so far (whether or not an exception was thrown) and an away leader that is
always `null`. -/
def espnLeadersRun (comp home away : JVal) : Option LeaderR × Option LeaderR :=
  match espnLeadersTry comp home away with
  | .ok h => (h, none)
  | .error (_, h) => (h, none)

/-- `Number(c.score)`, the ESPN score resolution (no default: an absent score
converts `undefined`). -/
def espnTeamScore (c : JVal) : JNum := jsToNumber (c.getP "score")

/-- The ESPN per-team object, built from the competitor `c` and its (already
dereferenced, non-nullish) `c.team` value. Wins/losses are hard-coded `null`. -/
def espnTeam (c teamV : JVal) : TeamResult :=
  { id := teamV.getP "id",
    tricode := teamV.getP "abbreviation",
    name := teamV.getP "name",
    logo :=
      (let lg := teamV.getP "logo"
       if lg.truthy then lg
       else
         let lgs := teamV.getP "logos"
         let chain :=
           if lgs.truthy then
             (let l0 := lgs.idxP 0
              if l0.truthy then l0.getP "href" else l0)
           else lgs
         if chain.truthy then chain else .str ""),
    score := espnTeamScore c,
    wins := .null,
    losses := .null }

/-- The record literal returned for one ESPN event, given the values bound
earlier in the callback body. -/
def mkEspnGame (event statusV home away homeTeamV awayTeamV : JVal)
    (ld : Option LeaderR × Option LeaderR) : Game :=
  let sc := espnStatusCode (statusV.getP "state")
  { id := event.getP "id",
    status := statusV.getP "shortDetail",
    statusCode := sc,
    clock := statusV.getP "shortDetail",
    isLive := decide (sc = JNum.int 2),
    home := espnTeam home homeTeamV,
    away := espnTeam away awayTeamV,
    leaders := some ld }

/-- The body of `normalizeESPNGames`'s `map` callback, with every throwing
access sequenced in source order. -/
def normalizeESPNEvent (event : JVal) : Except String Game :=
  (event.getE "competitions").bind fun comps =>
  (comps.idxE 0).bind fun comp =>
  (comp.getE "competitors").bind fun competitors =>
  (jsFindE competitors (fun c =>
      (c.getE "homeAway").map fun ha => jsStrictEq ha (.str "home"))).bind fun home =>
  (jsFindE competitors (fun c =>
      (c.getE "homeAway").map fun ha => jsStrictEq ha (.str "away"))).bind fun away =>
  ((event.getP "status").getE "type").bind fun statusV =>
  (statusV.getE "state").bind fun _ =>
  (home.getE "team").bind fun homeTeamV =>
  (homeTeamV.getE "id").bind fun _ =>
  (away.getE "team").bind fun awayTeamV =>
  (awayTeamV.getE "id").bind fun _ =>
  .ok (mkEspnGame event statusV home away homeTeamV awayTeamV
        (espnLeadersRun comp home away))

/-- `normalizeESPNGames(data)`: container guard, then per-event mapping. -/
def normalizeESPNGames (data : JVal) : Except String (List Game) :=
  if !data.truthy then .ok []
  else
    match data.getP "events" with
    | .arr l => exceptMapM normalizeESPNEvent l
    | _ => .ok []

/-! ## Historical (tabular) normalizer (`normalizeHistoricalGames`) -/

/-- The `getResultSet` predicate:
`rs.name && rs.name.toLowerCase().includes(nameGuess.toLowerCase())`. -/
def histSetPred (guess : String) (rs : JVal) : Except String Bool :=
  (rs.getE "name").bind fun nm =>
  if !nm.truthy then .ok false
  else (jsToLowerCaseE nm).map fun low => strIncludes low (strLower guess)

/-- `getResultSet(nameGuess, fallbackIndex)`: name match first, then the fixed
positional fallback, then `null`. -/
def getResultSet (rl : List JVal) (guess : String) (fb : Nat) : Except String JVal :=
  (jsFindE (.arr rl) (histSetPred guess)).map fun found =>
    if found.truthy then found else jsOr (rl.getD fb .undefined) .null

/-- The `idx`/`lhIdx` helpers combined with their call sites
`idx(name) >= 0 ? idx(name) : fallback`: case-insensitive header-name match,
fixed legacy positional index when the name is absent. Calling `findIndex` on
a non-array (e.g. a truthy non-array `headers` field) throws. -/
def resolveIdx (hs : JVal) (name : String) (fb : Nat) : Except String Nat :=
  match hs with
  | .arr hl =>
    .ok (match hl.findIdx? (fun h => strLower (jsToString h) == strLower name) with
         | some i => i
         | none => fb)
  | _ => .error "TypeError: findIndex is not a function"

/-- `parseRecord(rec)`: split a `"20-10"`-style string on `'-'` and parse both
halves with `parseInt`; each half is nulled independently when it fails to
parse. -/
def parseRecord (rec : JVal) : JVal × JVal :=
  if !rec.truthy then (.null, .null)
  else
    match rec with
    | .str s =>
      if s.data.contains '-' then
        let parts := splitOnChar '-' s
        let w := jsParseInt (parts.getD 0 "")
        let l := jsParseInt (parts.getD 1 "")
        (match w with | .nan => .null | .int n => .num (.int n),
         match l with | .nan => .null | .int n => .num (.int n))
      else (.null, .null)
    | _ => (.null, .null)

/-- The fixed numeric-id to tricode map with `map[Number(id)] || map[id] || 'NBA'`
lookup. -/
def tricodeTable : List (String × String) :=
  [("1610612747", "LAL"), ("1610612738", "BOS"), ("1610612744", "GSW"),
   ("1610612756", "PHX"), ("1610612746", "BKN"), ("1610612741", "CHI"),
   ("1610612760", "SAC")]

/-- `getTeamTricode(id)`. -/
def getTeamTricode (id : JVal) : JVal :=
  let parsed := jsToNumber id
  match tricodeTable.find? (fun kv => kv.1 == jnumToString parsed) with
  | some kv => .str kv.2
  | none =>
    match tricodeTable.find? (fun kv => kv.1 == jsToString id) with
    | some kv => .str kv.2
    | none => .str "NBA"

/-- `Number(line[ptsIdx] ?? 0)`, the historical score resolution on an already
defaulted (non-nullish) line row. -/
def histLineScore (line : JVal) (ptsIdx : Nat) : JNum :=
  jsToNumber (jsCoal (line.idxP ptsIdx) (.num (.int 0)))

/-- The line-row correlation predicate
`String(l[2]) === String(gameId) && String(l[3]) === String(teamId)`
(fixed positional columns 2 and 3, short-circuited). -/
def histLinePred (gameId teamId : JVal) (l : JVal) : Except String Bool :=
  (l.idxE 2).bind fun l2 =>
  if jsToString l2 == jsToString gameId then
    (l.idxE 3).map fun l3 => jsToString l3 == jsToString teamId
  else .ok false

/-- The record literal returned for one historical header row. -/
def mkHistGame (gameId statusTextRaw homeTeamId awayTeamId homeFound awayFound
    hrecRaw arecRaw : JVal) (ptsIdx : Nat) : Game :=
  let statusText := jsOr statusTextRaw (.str "")
  let homeLine := jsOr homeFound (.arr [])
  let awayLine := jsOr awayFound (.arr [])
  let homeRec := parseRecord hrecRaw
  let awayRec := parseRecord arecRaw
  { id := .str (jsToString gameId),
    status := statusText,
    statusCode := if strIncludes (strLower (jsToString statusText)) "final"
                  then .int 3 else .int 1,
    clock := statusText,
    isLive := false,
    home := { id := homeTeamId,
              tricode := getTeamTricode homeTeamId,
              name := .str "",
              logo := .undefined,
              score := histLineScore homeLine ptsIdx,
              wins := homeRec.1,
              losses := homeRec.2 },
    away := { id := awayTeamId,
              tricode := getTeamTricode awayTeamId,
              name := .str "",
              logo := .undefined,
              score := histLineScore awayLine ptsIdx,
              wins := awayRec.1,
              losses := awayRec.2 },
    leaders := none }

/-- The body of the historical normalizer's `map` over header rows. -/
def normalizeHistRow (gIdx sIdx hIdx aIdx hrIdx arIdx ptsIdx : Nat)
    (lineRows : JVal) (row : JVal) : Except String Game :=
  (row.idxE gIdx).bind fun gameId =>
  let statusTextRaw := row.idxP sIdx
  let homeTeamId := row.idxP hIdx
  let awayTeamId := row.idxP aIdx
  (jsFindE lineRows (histLinePred gameId homeTeamId)).bind fun homeFound =>
  (jsFindE lineRows (histLinePred gameId awayTeamId)).bind fun awayFound =>
  .ok (mkHistGame gameId statusTextRaw homeTeamId awayTeamId homeFound awayFound
        (row.idxP hrIdx) (row.idxP arIdx) ptsIdx)

/-- `normalizeHistoricalGames(data)`: container guards, result-set selection by
name with positional fallback, header-index resolution, then per-row mapping. -/
def normalizeHistoricalGames (data : JVal) : Except String (List Game) :=
  if !data.truthy then .ok []
  else
    match data.getP "resultSets" with
    | .arr rl =>
      (getResultSet rl "GameHeader" 0).bind fun headerSet =>
      (getResultSet rl "LineScore" 1).bind fun lineScoreSet =>
      if !headerSet.truthy then .ok []
      else
        match headerSet.getP "rowSet" with
        | .arr headerRows =>
          let headersV := jsOr (headerSet.getP "headers") (.arr [])
          let lineHeaders :=
            jsOr (if lineScoreSet.truthy then jsOr (lineScoreSet.getP "headers") (.arr [])
                  else lineScoreSet) (.arr [])
          let lineRows :=
            jsOr (if lineScoreSet.truthy then lineScoreSet.getP "rowSet"
                  else lineScoreSet) (.arr [])
          (resolveIdx headersV "GAME_ID" 2).bind fun gIdx =>
          (resolveIdx headersV "GAME_STATUS_TEXT" 4).bind fun sIdx =>
          (resolveIdx headersV "HOME_TEAM_ID" 6).bind fun hIdx =>
          (resolveIdx headersV "VISITOR_TEAM_ID" 7).bind fun aIdx =>
          (resolveIdx headersV "HOME_TEAM_WINS_LOSSES" 8).bind fun hrIdx =>
          (resolveIdx headersV "VISITOR_TEAM_WINS_LOSSES" 9).bind fun arIdx =>
          (resolveIdx lineHeaders "PTS" 22).bind fun ptsIdx =>
          exceptMapM (normalizeHistRow gIdx sIdx hIdx aIdx hrIdx arIdx ptsIdx lineRows)
            headerRows
        | _ => .ok []
    | _ => .ok []

/-! ## Relay Service (Cloudflare worker `fetch` handler) -/

/-- The upstream response observed by the worker's outbound `fetch`. -/
structure Upstream where
  status : Nat
  body : String
  headers : List (String × String)

/-- The worker's response: status, body (`none` models `new Response(null)`),
headers. -/
structure WResponse where
  status : Nat
  body : Option String
  headers : List (String × String)

/-- The CORS preflight headers of the worker's `OPTIONS` answer. -/
def corsPreflightHeaders : List (String × String) :=
  [("Access-Control-Allow-Origin", "*"),
   ("Access-Control-Allow-Methods", "GET,HEAD,POST,OPTIONS"),
   ("Access-Control-Allow-Headers", "*")]

/-- `Headers.set`: header names are case-insensitive; `set` replaces any
existing entry. -/
def hset (hs : List (String × String)) (n v : String) : List (String × String) :=
  (hs.filter (fun p => strLower p.1 != strLower n)) ++ [(n, v)]

/-- `Headers.get` (case-insensitive). -/
def hget (hs : List (String × String)) (n : String) : Option String :=
  (hs.find? (fun p => strLower p.1 == strLower n)).map (fun p => p.2)

/-- The worker's `fetch(request)` handler. `urlParam` is
`url.searchParams.get('url')` (`none` when the parameter is missing) and
`outbound` is the outbound `fetch` of the target URL, which either returns an
upstream response or throws with an error rendered by `String(err)`. -/
def workerFetch (method : String) (urlParam : Option String)
    (outbound : String → Except String Upstream) : WResponse :=
  if method == "OPTIONS" then
    { status := 204, body := none, headers := corsPreflightHeaders }
  else
    match urlParam with
    | none => { status := 400, body := some "Missing url parameter", headers := [] }
    | some t =>
      if t == "" then
        { status := 400, body := some "Missing url parameter", headers := [] }
      else
        match outbound t with
        | .ok resp =>
          { status := resp.status,
            body := some resp.body,
            headers :=
              hset (hset (hset resp.headers "Access-Control-Allow-Origin" "*")
                      "Access-Control-Allow-Methods" "GET,HEAD,POST,OPTIONS")
                "Cache-Control" "max-age=15" }
        | .error e =>
          { status := 502, body := some ("Proxy fetch failed: " ++ e), headers := [] }

/-! ## Structural inversion lemmas -/

theorem normalizeLiveGame_ok {v : JVal} {g : Game}
    (h : normalizeLiveGame v = .ok g) : g = mkLiveGame v := by
  cases v <;> simp only [normalizeLiveGame] at h <;> cases h <;> rfl

theorem normalizeLiveGames_ok_mem {v : JVal} {gs : List Game}
    (h : normalizeLiveGames v = .ok gs) : ∀ g ∈ gs, ∃ w, g = mkLiveGame w := by
  unfold normalizeLiveGames at h
  split at h
  · intro g hg
    obtain ⟨a, _, hfa⟩ := exceptMapM_ok_mem h g hg
    exact ⟨a, normalizeLiveGame_ok hfa⟩
  · simp at h

theorem normalizeESPNEvent_ok {e : JVal} {g : Game}
    (h : normalizeESPNEvent e = .ok g) :
    ∃ comp statusV home away hT aT,
      g = mkEspnGame e statusV home away hT aT (espnLeadersRun comp home away) := by
  unfold normalizeESPNEvent at h
  obtain ⟨comps, _, h⟩ := ebind_ok h
  obtain ⟨comp, _, h⟩ := ebind_ok h
  obtain ⟨competitors, _, h⟩ := ebind_ok h
  obtain ⟨home, _, h⟩ := ebind_ok h
  obtain ⟨away, _, h⟩ := ebind_ok h
  obtain ⟨statusV, _, h⟩ := ebind_ok h
  obtain ⟨st, _, h⟩ := ebind_ok h
  obtain ⟨hT, _, h⟩ := ebind_ok h
  obtain ⟨hid, _, h⟩ := ebind_ok h
  obtain ⟨aT, _, h⟩ := ebind_ok h
  obtain ⟨aid, _, h⟩ := ebind_ok h
  cases h
  exact ⟨comp, statusV, home, away, hT, aT, rfl⟩

theorem normalizeESPNGames_ok_mem {d : JVal} {gs : List Game}
    (h : normalizeESPNGames d = .ok gs) :
    ∀ g ∈ gs, ∃ e, normalizeESPNEvent e = .ok g := by
  unfold normalizeESPNGames at h
  split at h
  · cases h
    intro g hg
    simp at hg
  · split at h
    · intro g hg
      obtain ⟨a, _, hfa⟩ := exceptMapM_ok_mem h g hg
      exact ⟨a, hfa⟩
    · cases h
      intro g hg
      simp at hg

theorem normalizeHistRow_ok {gIdx sIdx hIdx aIdx hrIdx arIdx ptsIdx : Nat}
    {lineRows row : JVal} {g : Game}
    (h : normalizeHistRow gIdx sIdx hIdx aIdx hrIdx arIdx ptsIdx lineRows row = .ok g) :
    ∃ a b c d e f p q pi, g = mkHistGame a b c d e f p q pi := by
  unfold normalizeHistRow at h
  obtain ⟨gameId, _, h⟩ := ebind_ok h
  obtain ⟨hF, _, h⟩ := ebind_ok h
  obtain ⟨aF, _, h⟩ := ebind_ok h
  cases h
  exact ⟨_, _, _, _, _, _, _, _, _, rfl⟩

theorem normalizeHistoricalGames_ok_mem {d : JVal} {gs : List Game}
    (h : normalizeHistoricalGames d = .ok gs) :
    ∀ g ∈ gs, ∃ a b c d' e f p q pi, g = mkHistGame a b c d' e f p q pi := by
  unfold normalizeHistoricalGames at h
  split at h
  · cases h
    intro g hg
    simp at hg
  · split at h
    · obtain ⟨headerSet, _, h⟩ := ebind_ok h
      obtain ⟨lineScoreSet, _, h⟩ := ebind_ok h
      split at h
      · cases h
        intro g hg
        simp at hg
      · split at h
        · obtain ⟨i1, _, h⟩ := ebind_ok h
          obtain ⟨i2, _, h⟩ := ebind_ok h
          obtain ⟨i3, _, h⟩ := ebind_ok h
          obtain ⟨i4, _, h⟩ := ebind_ok h
          obtain ⟨i5, _, h⟩ := ebind_ok h
          obtain ⟨i6, _, h⟩ := ebind_ok h
          obtain ⟨i7, _, h⟩ := ebind_ok h
          intro g hg
          obtain ⟨row, _, hrow⟩ := exceptMapM_ok_mem h g hg
          exact normalizeHistRow_ok hrow
        · cases h
          intro g hg
          simp at hg
    · cases h
      intro g hg
      simp at hg

/-! ## Shape properties of the per-record constructors -/

theorem espnStatusCode_cases (state : JVal) :
    espnStatusCode state = .int 1 ∨ espnStatusCode state = .int 2 ∨
      espnStatusCode state = .int 3 := by
  unfold espnStatusCode
  split
  · exact .inr (.inl rfl)
  · split
    · exact .inr (.inr rfl)
    · exact .inl rfl

theorem mkEspnGame_statusCode (e s h a hT aT : JVal) (ld : Option LeaderR × Option LeaderR) :
    (mkEspnGame e s h a hT aT ld).statusCode = espnStatusCode (s.getP "state") := rfl

theorem mkEspnGame_isLive (e s h a hT aT : JVal) (ld : Option LeaderR × Option LeaderR) :
    (mkEspnGame e s h a hT aT ld).isLive
      = decide ((mkEspnGame e s h a hT aT ld).statusCode = JNum.int 2) := rfl

theorem mkEspnGame_records (e s h a hT aT : JVal) (ld : Option LeaderR × Option LeaderR) :
    (mkEspnGame e s h a hT aT ld).home.wins = .null ∧
    (mkEspnGame e s h a hT aT ld).home.losses = .null ∧
    (mkEspnGame e s h a hT aT ld).away.wins = .null ∧
    (mkEspnGame e s h a hT aT ld).away.losses = .null :=
  ⟨rfl, rfl, rfl, rfl⟩

theorem mkEspnGame_leaders (e s h a hT aT : JVal) (ld : Option LeaderR × Option LeaderR) :
    (mkEspnGame e s h a hT aT ld).leaders = some ld := rfl

theorem espnLeadersRun_snd (comp home away : JVal) :
    (espnLeadersRun comp home away).2 = none := by
  unfold espnLeadersRun
  split <;> rfl

theorem mkLiveGame_isLive (v : JVal) :
    (mkLiveGame v).isLive = decide ((mkLiveGame v).statusCode = JNum.int 2) := rfl

theorem mkHistGame_statusCode_cases (a b c d e f p q : JVal) (pi : Nat) :
    (mkHistGame a b c d e f p q pi).statusCode = .int 1 ∨
      (mkHistGame a b c d e f p q pi).statusCode = .int 3 := by
  unfold mkHistGame
  dsimp only
  split
  · exact .inr rfl
  · exact .inl rfl

theorem mkHistGame_isLive (a b c d e f p q : JVal) (pi : Nat) :
    (mkHistGame a b c d e f p q pi).isLive = false := rfl

theorem mkHistGame_leaders (a b c d e f p q : JVal) (pi : Nat) :
    (mkHistGame a b c d e f p q pi).leaders = none := rfl

/-! ## Claim C1 -/

/-- A live-provider record whose `gameStatus` is the unrecognized value `5`. -/
def c1BadStatusPayload : JVal := .arr [.obj [("gameStatus", .num (.int 5))]]

/-- C1 counterexample: `normalizeLiveGames` passes an unrecognized provider
status value straight through as `statusCode`, so a record with
`gameStatus = 5` produces `statusCode = 5`, which is none of 1, 2, 3 — unknown
provider states are not mapped to NOT_STARTED on the live path. -/
theorem C1_counterexample :
    (normalizeLiveGames c1BadStatusPayload).map (List.map Game.statusCode)
        = .ok [JNum.int 5] ∧
    JNum.int 5 ≠ JNum.int 1 ∧ JNum.int 5 ≠ JNum.int 2 ∧ JNum.int 5 ≠ JNum.int 3 :=
  ⟨rfl, by decide, by decide, by decide⟩

/-- C1 (amended): every Game produced by `normalizeESPNGames` has `statusCode`
in {1,2,3} (unrecognized states map to 1) and every Game produced by
`normalizeHistoricalGames` has `statusCode` in {1,3}; on all three normalizers
`isLive` holds exactly when `statusCode = 2`. The live normalizer, however,
passes the provider's status value through `Number()` unchanged (defaulting to
1 only when the field is absent), so on that path only the
`isLive ↔ statusCode = 2` half holds for arbitrary payloads. -/
theorem C1_statusCode_amended :
    (∀ d gs, normalizeESPNGames d = .ok gs → ∀ g ∈ gs,
       (g.statusCode = .int 1 ∨ g.statusCode = .int 2 ∨ g.statusCode = .int 3) ∧
       (g.isLive = true ↔ g.statusCode = JNum.int 2)) ∧
    (∀ d gs, normalizeHistoricalGames d = .ok gs → ∀ g ∈ gs,
       (g.statusCode = .int 1 ∨ g.statusCode = .int 3) ∧
       (g.isLive = true ↔ g.statusCode = JNum.int 2)) ∧
    (∀ d gs, normalizeLiveGames d = .ok gs → ∀ g ∈ gs,
       g.isLive = true ↔ g.statusCode = JNum.int 2) := by
  refine ⟨?_, ?_, ?_⟩
  · intro d gs h g hg
    obtain ⟨e, he⟩ := normalizeESPNGames_ok_mem h g hg
    obtain ⟨comp, statusV, home, away, hT, aT, rfl⟩ := normalizeESPNEvent_ok he
    refine ⟨by rw [mkEspnGame_statusCode]; exact espnStatusCode_cases _, ?_⟩
    rw [mkEspnGame_isLive]
    simp
  · intro d gs h g hg
    obtain ⟨a, b, c, d', e, f, p, q, pi, rfl⟩ := normalizeHistoricalGames_ok_mem h g hg
    refine ⟨mkHistGame_statusCode_cases a b c d' e f p q pi, ?_⟩
    rw [mkHistGame_isLive]
    rcases mkHistGame_statusCode_cases a b c d' e f p q pi with hsc | hsc <;>
      rw [hsc] <;> simp
  · intro d gs h g hg
    obtain ⟨w, rfl⟩ := normalizeLiveGames_ok_mem h g hg
    rw [mkLiveGame_isLive]
    simp

/-- A minimal well-formed ESPN payload with one in-progress event. -/
def c1EspnPayload : JVal := .obj [("events", .arr [.obj [
  ("competitions", .arr [.obj [("competitors", .arr [
     .obj [("homeAway", .str "home"), ("team", .obj [("id", .str "1")])],
     .obj [("homeAway", .str "away"), ("team", .obj [("id", .str "2")])]])]]),
  ("status", .obj [("type", .obj [("state", .str "in")])])]])]

/-- The Game `normalizeESPNGames` produces for `c1EspnPayload`. -/
def c1EspnGame : Game :=
  { id := .undefined, status := .undefined, statusCode := .int 2, clock := .undefined,
    isLive := true,
    home := { id := .str "1", tricode := .undefined, name := .undefined, logo := .str "",
              score := .nan, wins := .null, losses := .null },
    away := { id := .str "2", tricode := .undefined, name := .undefined, logo := .str "",
              score := .nan, wins := .null, losses := .null },
    leaders := some (none, none) }

theorem C1_witness :
    (c1EspnGame.statusCode = .int 1 ∨ c1EspnGame.statusCode = .int 2 ∨
       c1EspnGame.statusCode = .int 3) ∧
    (c1EspnGame.isLive = true ↔ c1EspnGame.statusCode = JNum.int 2) :=
  C1_statusCode_amended.1 c1EspnPayload [c1EspnGame] rfl c1EspnGame
    (List.mem_singleton.mpr rfl)

/-! ## Claim C2 -/

/-- A well-formed ESPN payload whose single event record is missing all
fields. -/
def c2IncompleteEspnPayload : JVal := .obj [("events", .arr [.obj []])]

/-- C2 counterexample: `normalizeESPNGames` throws on a well-formed payload
whose event record lacks `competitions` (reading `[0]` of `undefined`), so
normalization is not total on well-formed-but-incomplete payloads. -/
theorem C2_counterexample :
    normalizeESPNGames c2IncompleteEspnPayload
      = .error "TypeError: cannot read properties of undefined" := rfl

/-- The Game the live normalizer produces for a record with every field
missing: all documented defaults (empty status/name strings, score 0, null
wins/losses/leaders). -/
def c2DefaultLiveGame : Game :=
  { id := .str "", status := .str "", statusCode := .int 1, clock := .str "",
    isLive := false,
    home := { id := .null, tricode := .null, name := .str "", logo := .undefined,
              score := .int 0, wins := .null, losses := .null },
    away := { id := .null, tricode := .null, name := .str "", logo := .undefined,
              score := .int 0, wins := .null, losses := .null },
    leaders := none }

/-- C2 (amended): the live normalizer never throws on an array of non-nullish
records — missing fields degrade to the documented defaults, as the
all-fields-missing record shows — but the ESPN normalizer does throw when an
event record lacks `competitions`, `status`, or a home/away competitor
(`C2_counterexample`). -/
theorem C2_amended :
    (∀ l : List JVal, (∀ g ∈ l, g.isNullish = false) →
        ∃ gs, normalizeLiveGames (.arr l) = .ok gs) ∧
    normalizeLiveGames (.arr [.obj []]) = .ok [c2DefaultLiveGame] := by
  constructor
  · intro l hl
    have hmap : normalizeLiveGames (.arr l) = exceptMapM normalizeLiveGame l := rfl
    rw [hmap]
    apply exceptMapM_ok_of_forall
    intro a ha
    have hn := hl a ha
    refine ⟨mkLiveGame a, ?_⟩
    cases a <;> first | rfl | simp [JVal.isNullish] at hn
  · rfl

theorem C2_witness :
    (normalizeLiveGames (.arr [.obj [("gameStatus", .num (.int 2))]])).toOption.isSome
      = true := by
  obtain ⟨gs, hgs⟩ := C2_amended.1 [.obj [("gameStatus", .num (.int 2))]]
    (by intro g hg; rw [List.mem_singleton] at hg; subst hg; rfl)
  rw [hgs]
  rfl

/-! ## Claim C3 -/

/-- C3 counterexample: a record string whose second half fails to parse keeps
the numeric first half — `"20-abc"` yields `wins = 20, losses = null`, so the
pair is not nulled as a whole. -/
theorem C3_counterexample :
    parseRecord (.str "20-abc") = (JVal.num (.int 20), JVal.null) ∧
    (JVal.num (.int 20), JVal.null) ≠ (JVal.null, JVal.null) :=
  ⟨rfl, fun h => JVal.noConfusion (congrArg Prod.fst h)⟩

/-- C3 (amended): record parsing splits on `'-'` and parses both halves with
`parseInt`, but each half is nulled independently: `"20-10"` gives `(20, 10)`,
`"abc"` gives `(null, null)` (no separator), `"abc-10"` gives `(null, 10)` and
`"20-abc"` gives `(20, null)`; any string without `'-'` and any falsy value
parses to `(null, null)`. -/
theorem C3_amended :
    parseRecord (.str "20-10") = (JVal.num (.int 20), JVal.num (.int 10)) ∧
    parseRecord (.str "abc") = (JVal.null, JVal.null) ∧
    parseRecord (.str "abc-10") = (JVal.null, JVal.num (.int 10)) ∧
    (∀ s : String, s.data.contains '-' = false → parseRecord (.str s) = (JVal.null, JVal.null)) ∧
    (∀ v : JVal, v.truthy = false → parseRecord v = (JVal.null, JVal.null)) := by
  refine ⟨rfl, rfl, rfl, ?_, ?_⟩
  · intro s hs
    unfold parseRecord
    split
    · rfl
    · simp only [hs, Bool.false_eq_true, if_false]
  · intro v hv
    unfold parseRecord
    simp [hv]

theorem C3_witness : parseRecord (.str "nodash") = (JVal.null, JVal.null) :=
  C3_amended.2.2.2.1 "nodash" rfl

/-! ## Claim C4 -/

/-- A well-formed ESPN payload where the home competitor has no `score`
field at all (the away one has `"99"`). -/
def c4NoScorePayload : JVal := .obj [("events", .arr [.obj [
  ("competitions", .arr [.obj [("competitors", .arr [
     .obj [("homeAway", .str "home"), ("team", .obj [("id", .str "1")])],
     .obj [("homeAway", .str "away"), ("team", .obj [("id", .str "2")]),
           ("score", .str "99")]])]]),
  ("status", .obj [("type", .obj [("state", .str "post")])])]])]

/-- C4 counterexample: on the ESPN path an absent score field converts via
`Number(undefined)` to NaN, not to 0. -/
theorem C4_counterexample :
    (normalizeESPNGames c4NoScorePayload).map
        (List.map fun g => (g.home.score, g.away.score))
      = .ok [(JNum.nan, JNum.int 99)] ∧
    JNum.nan ≠ JNum.int 0 :=
  ⟨rfl, by decide⟩

/-- C4 (amended): a score defaults to 0 when the source field is absent or
null on the live path (`score ?? points ?? 0`) and on the historical path
(`line[pts] ?? 0`), and when it is null on the ESPN path (`Number(null) = 0`);
but an absent ESPN score and a non-numeric score string on any path produce
NaN rather than 0. -/
theorem C4_amended :
    (∀ t : JVal, (t.getP "score").isNullish = true →
        (t.getP "points").isNullish = true → liveTeamScore t = .int 0) ∧
    (∀ line : JVal, ∀ i : Nat, (line.idxP i).isNullish = true →
        histLineScore line i = .int 0) ∧
    (∀ c : JVal, c.getP "score" = .null → espnTeamScore c = .int 0) ∧
    (∀ c : JVal, c.getP "score" = .undefined → espnTeamScore c = .nan) ∧
    liveTeamScore (.obj [("score", .str "abc")]) = .nan ∧
    espnTeamScore (.obj [("score", .str "abc")]) = .nan := by
  refine ⟨?_, ?_, ?_, ?_, rfl, rfl⟩
  · intro t h1 h2
    simp [liveTeamScore, jsCoal, h1, h2, jsToNumber]
  · intro line i h
    simp [histLineScore, jsCoal, h, jsToNumber]
  · intro c h
    simp [espnTeamScore, h, jsToNumber]
  · intro c h
    simp [espnTeamScore, h, jsToNumber]

theorem C4_witness :
    liveTeamScore (.obj []) = JNum.int 0 ∧
    histLineScore (.arr []) 22 = JNum.int 0 ∧
    espnTeamScore (.obj [("score", JVal.null)]) = JNum.int 0 ∧
    espnTeamScore (.obj []) = JNum.nan :=
  ⟨C4_amended.1 (.obj []) rfl rfl,
   C4_amended.2.1 (.arr []) 22 rfl,
   C4_amended.2.2.1 (.obj [("score", JVal.null)]) rfl,
   C4_amended.2.2.2.1 (.obj []) rfl⟩

/-! ## Claim C5 -/

/-- C5 counterexample: the live normalizer applied to the wrong-shaped
container `{}` throws (`({}).map` is not a function) rather than returning the
empty sequence. -/
theorem C5_counterexample :
    normalizeLiveGames (.obj [])
      = .error "TypeError: games.map is not a function" := rfl

/-- C5 (amended): the ESPN and historical normalizers return the empty
sequence whenever the payload is falsy or its container field (`events` resp.
`resultSets`) is not an array — in particular for `{}` and `{events: []}` —
and the live normalizer returns the empty sequence when its argument is falsy
(absent container); but the live normalizer throws on a truthy non-array
argument such as `{}`. -/
theorem C5_amended :
    (∀ d : JVal, d.truthy = false → normalizeESPNGames d = .ok []) ∧
    (∀ d : JVal, (d.getP "events").isArr = false → normalizeESPNGames d = .ok []) ∧
    normalizeESPNGames (.obj [("events", .arr [])]) = .ok [] ∧
    (∀ d : JVal, d.truthy = false → normalizeHistoricalGames d = .ok []) ∧
    (∀ d : JVal, (d.getP "resultSets").isArr = false → normalizeHistoricalGames d = .ok []) ∧
    normalizeHistoricalGames (.obj []) = .ok [] ∧
    (∀ v : JVal, v.truthy = false → normalizeLiveGames v = .ok []) := by
  refine ⟨?_, ?_, rfl, ?_, ?_, rfl, ?_⟩
  · intro d h
    simp [normalizeESPNGames, h]
  · intro d h
    unfold normalizeESPNGames
    split
    · rfl
    · rcases hE : d.getP "events" with _ | _ | b | n | s | l | fs <;> try rfl
      rw [hE] at h
      simp [JVal.isArr] at h
  · intro d h
    simp [normalizeHistoricalGames, h]
  · intro d h
    unfold normalizeHistoricalGames
    split
    · rfl
    · rcases hE : d.getP "resultSets" with _ | _ | b | n | s | l | fs <;> try rfl
      rw [hE] at h
      simp [JVal.isArr] at h
  · intro v h
    simp [normalizeLiveGames, jsOr, h, exceptMapM]

theorem C5_witness :
    normalizeESPNGames (.obj []) = .ok [] ∧
    normalizeHistoricalGames JVal.null = .ok [] ∧
    normalizeLiveGames JVal.null = .ok [] ∧
    normalizeESPNGames (.obj [("events", JVal.str "x")]) = .ok [] :=
  ⟨C5_amended.2.1 (.obj []) rfl,
   C5_amended.2.2.2.1 JVal.null rfl,
   C5_amended.2.2.2.2.2.2 JVal.null rfl,
   C5_amended.2.1 (.obj [("events", JVal.str "x")]) rfl⟩

/-! ## Claim C6 -/

/-- Home competitor used by the C6 scenarios. -/
def c6HomeComp : JVal := .obj [("homeAway", .str "home"),
  ("team", .obj [("id", .str "13"), ("abbreviation", .str "LAL"),
                 ("name", .str "Lakers")]),
  ("score", .str "112")]

/-- Away competitor used by the C6 scenarios. -/
def c6AwayComp : JVal := .obj [("homeAway", .str "away"),
  ("team", .obj [("id", .str "2"), ("abbreviation", .str "BOS"),
                 ("name", .str "Celtics")]),
  ("score", .str "109")]

/-- A competition whose `leaders` field is the parameter `ldr`. -/
def c6CompWith (ldr : JVal) : JVal :=
  .obj [("competitors", .arr [c6HomeComp, c6AwayComp]), ("leaders", ldr)]

/-- A final-state ESPN event whose leader data is the parameter `ldr`. -/
def c6EventWith (ldr : JVal) : JVal := .obj [
  ("id", .str "401"),
  ("competitions", .arr [c6CompWith ldr]),
  ("status", .obj [("type", .obj [("state", .str "post"),
                                  ("shortDetail", .str "Final")])])]

/-- A second, leaderless event for checking that neighbours are unaffected. -/
def c6Event2 : JVal := c6EventWith .null

/-- The Game produced for a C6 event, parametrized by its leader pair: every
field except `leaders` is independent of the event's leader data. -/
def c6GameWith (ld : Option LeaderR × Option LeaderR) : Game :=
  { id := .str "401", status := .str "Final", statusCode := .int 3,
    clock := .str "Final", isLive := false,
    home := { id := .str "13", tricode := .str "LAL", name := .str "Lakers",
              logo := .str "", score := .int 112, wins := .null, losses := .null },
    away := { id := .str "2", tricode := .str "BOS", name := .str "Celtics",
              logo := .str "", score := .int 109, wins := .null, losses := .null },
    leaders := some ld }

/-- Complete two-sided points-leader data for the C6 event. -/
def c6FullLeaders : JVal := .arr [.obj [("name", .str "points"), ("leaders", .arr [
   .obj [("team", .obj [("id", .str "13")]),
         ("athlete", .obj [("shortName", .str "L. James")]),
         ("displayValue", .str "28 PTS")],
   .obj [("team", .obj [("id", .str "2")]),
         ("athlete", .obj [("shortName", .str "J. Tatum")]),
         ("displayValue", .str "34 PTS")]])]]

/-- C6 counterexample: with full two-sided leader data, leader extraction does
raise (the `awayLdr` ReferenceError) and the exception is caught, but the
affected game's `leaders` field is NOT degraded to "no leader data": the home
leader assigned before the throw is kept (`L. James / 28 PTS`), only the away
side is null. -/
theorem C6_counterexample :
    espnLeadersTry (c6CompWith c6FullLeaders) c6HomeComp c6AwayComp
      = .error ("ReferenceError: awayLdr is not defined",
                some ⟨.str "L. James", .str "28 PTS"⟩) ∧
    normalizeESPNGames (.obj [("events", .arr [c6EventWith c6FullLeaders])])
      = .ok [c6GameWith (some ⟨.str "L. James", .str "28 PTS"⟩, none)] ∧
    (some (⟨.str "L. James", .str "28 PTS"⟩ : LeaderR) ≠ (none : Option LeaderR)) :=
  ⟨rfl, rfl, fun h => Option.noConfusion h⟩

/-- C6 (amended): any exception during ESPN leader extraction is caught inside
the per-event callback and never aborts normalization: for EVERY leader value
`ldr` — including ones whose extraction throws — the two-event payload
normalizes to the full two-game list, the first game differs only in its
`leaders` field (which receives whatever the caught extraction left behind:
leader fields assigned before the exception are kept, the rest are null), and
the second game is untouched. -/
theorem C6_amended :
    ∀ ldr : JVal,
      normalizeESPNGames (.obj [("events", .arr [c6EventWith ldr, c6Event2])])
        = .ok [c6GameWith (espnLeadersRun (c6CompWith ldr) c6HomeComp c6AwayComp),
               c6GameWith (none, none)] := by
  intro ldr
  rfl

theorem C6_witness :
    normalizeESPNGames (.obj [("events", .arr [c6EventWith JVal.null, c6Event2])])
      = .ok [c6GameWith (espnLeadersRun (c6CompWith JVal.null) c6HomeComp c6AwayComp),
             c6GameWith (none, none)] :=
  C6_amended JVal.null

/-! ## Claim C7 -/

/-- A historical payload whose headers are lowercase and at positions that
differ from the legacy fallbacks, whose line-score `PTS` column sits at index
4, and whose away score row is missing. -/
def c7HistPayload : JVal := .obj [("resultSets", .arr [
  .obj [("name", .str "GameHeader"),
        ("headers", .arr [.str "game_id", .str "game_status_text",
                          .str "home_team_id", .str "visitor_team_id",
                          .str "home_team_wins_losses",
                          .str "visitor_team_wins_losses"]),
        ("rowSet", .arr [.arr [.str "G1", .str "Final", .num (.int 10),
                               .num (.int 20), .str "20-10", .str "5-5"]])],
  .obj [("name", .str "LineScore"),
        ("headers", .arr [.str "a", .str "b", .str "gid", .str "tid", .str "pts"]),
        ("rowSet", .arr [.arr [.null, .null, .str "G1", .num (.int 10),
                               .num (.int 101)]])]])]

/-- A historical payload with no `headers` lists at all: every column must be
found through the fixed legacy positional fallbacks (2, 4, 6, 7, 8, 9 and 22
for `PTS`). -/
def c7LegacyPayload : JVal := .obj [("resultSets", .arr [
  .obj [("name", .str "GameHeader"),
        ("rowSet", .arr [.arr [.null, .null, .str "G2", .null, .str "7:00 PM ET",
           .null, .num (.int 1610612747), .num (.int 1610612738),
           .str "20-10", .str "30-5"]])],
  .obj [("name", .str "LineScore"),
        ("rowSet", .arr [.arr ((([.null, .null, .str "G2",
           .num (.int 1610612747)] : List JVal) ++ (List.replicate 18 .null)) ++
           [.num (.int 88)])])]])]

/-- C7: column resolution is by case-insensitive header-name match with the
fixed legacy positional index as fallback; score rows are correlated through
the game-id and team-id columns (with `String()` coercion, so a numeric row id
matches a string header id); and a missing or unmatched score row yields a
score of 0 rather than an error. Concretely, the header-bearing payload reads
the home score 101 from the custom `pts` column and gives the away team (whose
row is missing) 0, while the headerless payload resolves every column through
the legacy fallbacks, scoring 88 from column 22 and parsing the `"20-10"`
record from column 8. -/
theorem C7_hist_columns :
    (∀ (hl : List JVal) (name : String) (fb i : Nat),
        hl.findIdx? (fun h => strLower (jsToString h) == strLower name) = some i →
        resolveIdx (.arr hl) name fb = .ok i) ∧
    (∀ (hl : List JVal) (name : String) (fb : Nat),
        hl.findIdx? (fun h => strLower (jsToString h) == strLower name) = none →
        resolveIdx (.arr hl) name fb = .ok fb) ∧
    (∀ ptsIdx : Nat, histLineScore (jsOr JVal.undefined (.arr [])) ptsIdx = .int 0) ∧
    (normalizeHistoricalGames c7HistPayload).map
        (List.map fun g => (g.home.score, g.away.score))
      = .ok [(JNum.int 101, JNum.int 0)] ∧
    (normalizeHistoricalGames c7LegacyPayload).map
        (List.map fun g => (g.home.score, g.home.wins, g.home.tricode))
      = .ok [(JNum.int 88, JVal.num (.int 20), JVal.str "LAL")] := by
  refine ⟨?_, ?_, ?_, rfl, rfl⟩
  · intro hl name fb i h
    simp [resolveIdx, h]
  · intro hl name fb h
    simp [resolveIdx, h]
  · intro ptsIdx
    rfl

theorem C7_witness :
    resolveIdx (.arr [.str "game_id"]) "GAME_ID" 5 = .ok 0 ∧
    resolveIdx (.arr [.str "other"]) "PTS" 22 = .ok 22 ∧
    histLineScore (jsOr JVal.undefined (.arr [])) 22 = JNum.int 0 :=
  ⟨C7_hist_columns.1 [.str "game_id"] "GAME_ID" 5 0 rfl,
   C7_hist_columns.2.1 [.str "other"] "PTS" 22 rfl,
   C7_hist_columns.2.2.1 22⟩

/-! ## Claim C8 -/

/-- A well-formed ESPN payload whose event has no leader data at all. -/
def c8NoLeadersPayload : JVal := .obj [("events", .arr [.obj [
  ("competitions", .arr [.obj [("competitors", .arr [
     .obj [("homeAway", .str "home"), ("team", .obj [("id", .str "1")])],
     .obj [("homeAway", .str "away"), ("team", .obj [("id", .str "2")])]])]]),
  ("status", .obj [("type", .obj [("state", .str "pre")])])]])]

/-- C8 counterexample: when the ESPN provider exposes no per-player leader
data, the produced game's `leaders` field is the pair `{home: null, away:
null}`, not `null` — ESPN games never carry a `null` leaders field. -/
theorem C8_counterexample :
    (normalizeESPNGames c8NoLeadersPayload).map (List.map Game.leaders)
      = .ok [some (none, none)] ∧
    (some ((none : Option LeaderR), (none : Option LeaderR))
        ≠ (none : Option (Option LeaderR × Option LeaderR))) :=
  ⟨rfl, fun h => Option.noConfusion h⟩

/-- C8 (amended): the live normalizer produces a `null` leaders field exactly
when the provider's leaders container (`gameLeaders ?? leaders`) is falsy, and
the historical normalizer always produces `null`; the ESPN normalizer instead
always produces a pair — with the away side always `null` because of the
`awayLdr` slip — representing "no leader data" as `{home: null, away: null}`
rather than as `null`. -/
theorem C8_leaders_amended :
    (∀ d gs, normalizeESPNGames d = .ok gs → ∀ g ∈ gs,
        ∃ h, g.leaders = some (h, none)) ∧
    (∀ d gs, normalizeHistoricalGames d = .ok gs → ∀ g ∈ gs, g.leaders = none) ∧
    (∀ v : JVal, (mkLiveGame v).leaders = none ↔ (liveLeadersVal v).truthy = false) := by
  refine ⟨?_, ?_, ?_⟩
  · intro d gs h g hg
    obtain ⟨e, he⟩ := normalizeESPNGames_ok_mem h g hg
    obtain ⟨comp, statusV, home, away, hT, aT, rfl⟩ := normalizeESPNEvent_ok he
    refine ⟨(espnLeadersRun comp home away).1, ?_⟩
    rw [mkEspnGame_leaders, ← espnLeadersRun_snd comp home away]
  · intro d gs h g hg
    obtain ⟨a, b, c, d', e, f, p, q, pi, rfl⟩ := normalizeHistoricalGames_ok_mem h g hg
    exact mkHistGame_leaders a b c d' e f p q pi
  · intro v
    by_cases hl : (liveLeadersVal v).truthy <;> simp [mkLiveGame, hl]

theorem C8_witness :
    (mkLiveGame (.obj [])).leaders = none ↔
      (liveLeadersVal (.obj [])).truthy = false :=
  C8_leaders_amended.2.2 (.obj [])

/-! ## Claim C9 -/

theorem hget_hset_self (hs : List (String × String)) (n v : String) :
    hget (hset hs n v) n = some v := by
  unfold hget hset
  rw [List.find?_append]
  have h1 : (hs.filter (fun p => strLower p.1 != strLower n)).find?
      (fun p => strLower p.1 == strLower n) = none := by
    rw [List.find?_eq_none]
    intro x hx
    have hfx := List.of_mem_filter hx
    simp only [bne_iff_ne, ne_eq, decide_eq_true_eq] at hfx
    simp [hfx]
  rw [h1]
  simp [List.find?]

theorem hget_hset_diff (hs : List (String × String)) (n v n' : String)
    (hne : strLower n' ≠ strLower n) :
    hget (hset hs n v) n' = hget hs n' := by
  unfold hget hset
  rw [List.find?_append]
  have hpred : (strLower n == strLower n') = false := by
    rw [beq_eq_false_iff_ne]
    exact fun h => hne h.symm
  have h2 : (([(n, v)] : List (String × String)).find?
      (fun p => strLower p.1 == strLower n')) = none := by
    simp [List.find?, hpred]
  have h3 : (hs.filter (fun p => strLower p.1 != strLower n)).find?
        (fun p => strLower p.1 == strLower n')
      = hs.find? (fun p => strLower p.1 == strLower n') := by
    induction hs with
    | nil => rfl
    | cons a as ih =>
      rw [List.filter_cons]
      by_cases hg : (strLower a.1 == strLower n') = true
      · have hf : (strLower a.1 != strLower n) = true := by
          simp only [bne_iff_ne, ne_eq]
          intro hEq
          exact hne (by rw [← beq_iff_eq.mp hg, hEq])
        rw [if_pos hf]
        simp only [List.find?, hg]
      · have hg' : (strLower a.1 == strLower n') = false := by
          cases hx : (strLower a.1 == strLower n')
          · rfl
          · exact absurd hx hg
        by_cases hf : (strLower a.1 != strLower n) = true
        · rw [if_pos hf]
          simp only [List.find?, hg']
          exact ih
        · rw [if_neg hf]
          simp only [List.find?, hg']
          exact ih
  rw [h3, h2]
  simp

/-- C9: the relay worker's case analysis. An `OPTIONS` request gets 204 with
the CORS preflight headers; a missing or empty `url` parameter gets 400 with
body "Missing url parameter"; a successful proxied fetch forwards the upstream
status and body with `Cache-Control` overridden to `max-age=15` and
`Access-Control-Allow-Origin` set to `*`; and an outbound fetch failure gets
502 with body "Proxy fetch failed: " followed by the error text. -/
theorem C9_relay_cases :
    (∀ (u : Option String) (ob : String → Except String Upstream),
        workerFetch "OPTIONS" u ob
          = ⟨204, none, corsPreflightHeaders⟩) ∧
    (∀ (m : String) (ob : String → Except String Upstream), m ≠ "OPTIONS" →
        workerFetch m none ob = ⟨400, some "Missing url parameter", []⟩ ∧
        workerFetch m (some "") ob = ⟨400, some "Missing url parameter", []⟩) ∧
    (∀ (m t : String) (ob : String → Except String Upstream) (u : Upstream),
        m ≠ "OPTIONS" → t ≠ "" → ob t = .ok u →
        (workerFetch m (some t) ob).status = u.status ∧
        (workerFetch m (some t) ob).body = some u.body ∧
        hget (workerFetch m (some t) ob).headers "Cache-Control"
          = some "max-age=15" ∧
        hget (workerFetch m (some t) ob).headers "Access-Control-Allow-Origin"
          = some "*") ∧
    (∀ (m t : String) (ob : String → Except String Upstream) (e : String),
        m ≠ "OPTIONS" → t ≠ "" → ob t = .error e →
        workerFetch m (some t) ob
          = ⟨502, some ("Proxy fetch failed: " ++ e), []⟩) := by
  refine ⟨fun u ob => rfl, ?_, ?_, ?_⟩
  · intro m ob hm
    have hm' : (m == "OPTIONS") = false := beq_eq_false_iff_ne.mpr hm
    exact ⟨by simp [workerFetch, hm'], by simp [workerFetch, hm']⟩
  · intro m t ob u hm ht hob
    have hm' : (m == "OPTIONS") = false := beq_eq_false_iff_ne.mpr hm
    have ht' : (t == "") = false := beq_eq_false_iff_ne.mpr ht
    have hw : workerFetch m (some t) ob
        = { status := u.status, body := some u.body,
            headers :=
              hset (hset (hset u.headers "Access-Control-Allow-Origin" "*")
                      "Access-Control-Allow-Methods" "GET,HEAD,POST,OPTIONS")
                "Cache-Control" "max-age=15" } := by
      simp [workerFetch, hm', ht', hob]
    rw [hw]
    refine ⟨rfl, rfl, hget_hset_self _ _ _, ?_⟩
    rw [hget_hset_diff _ _ _ _ (by decide), hget_hset_diff _ _ _ _ (by decide),
        hget_hset_self]
  · intro m t ob e hm ht hob
    have hm' : (m == "OPTIONS") = false := beq_eq_false_iff_ne.mpr hm
    have ht' : (t == "") = false := beq_eq_false_iff_ne.mpr ht
    simp [workerFetch, hm', ht', hob]

/-- A concrete outbound fetch used to exercise the relay cases. -/
def c9Outbound : String → Except String Upstream := fun t =>
  if t == "https://u" then
    .ok ⟨207, "BODY", [("Cache-Control", "no-store"), ("X-Y", "z")]⟩
  else .error "TypeError: fetch failed"

theorem C9_witness :
    workerFetch "OPTIONS" none c9Outbound = ⟨204, none, corsPreflightHeaders⟩ ∧
    workerFetch "GET" none c9Outbound
      = ⟨400, some "Missing url parameter", []⟩ ∧
    (workerFetch "GET" (some "https://u") c9Outbound).status = 207 ∧
    (workerFetch "GET" (some "https://u") c9Outbound).body = some "BODY" ∧
    hget (workerFetch "GET" (some "https://u") c9Outbound).headers "Cache-Control"
      = some "max-age=15" ∧
    workerFetch "GET" (some "https://x") c9Outbound
      = ⟨502, some ("Proxy fetch failed: " ++ "TypeError: fetch failed"), []⟩ := by
  have h3 := C9_relay_cases.2.2.1 "GET" "https://u" c9Outbound
    ⟨207, "BODY", [("Cache-Control", "no-store"), ("X-Y", "z")]⟩
    (by decide) (by decide) rfl
  exact ⟨C9_relay_cases.1 none c9Outbound,
         (C9_relay_cases.2.1 "GET" c9Outbound (by decide)).1,
         h3.1, h3.2.1, h3.2.2.1,
         C9_relay_cases.2.2.2 "GET" "https://x" c9Outbound "TypeError: fetch failed"
           (by decide) (by decide) rfl⟩

/-! ## Claim C10 -/

/-- C10: every Game produced by `normalizeESPNGames` has `wins` and `losses`
equal to `null` on both teams — the ESPN path never populates win/loss
records, so records render blank there. -/
theorem C10_espn_records_null :
    ∀ d gs, normalizeESPNGames d = .ok gs → ∀ g ∈ gs,
      g.home.wins = .null ∧ g.home.losses = .null ∧
      g.away.wins = .null ∧ g.away.losses = .null := by
  intro d gs h g hg
  obtain ⟨e, he⟩ := normalizeESPNGames_ok_mem h g hg
  obtain ⟨comp, statusV, home, away, hT, aT, rfl⟩ := normalizeESPNEvent_ok he
  exact mkEspnGame_records e statusV home away hT aT _

/-- A well-formed one-event ESPN payload for the C10 witness. -/
def c10Payload : JVal := .obj [("events", .arr [.obj [
  ("competitions", .arr [.obj [("competitors", .arr [
     .obj [("homeAway", .str "home"), ("team", .obj [("id", .str "7")]),
           ("score", .str "90")],
     .obj [("homeAway", .str "away"), ("team", .obj [("id", .str "8")]),
           ("score", .str "80")]])]]),
  ("status", .obj [("type", .obj [("state", .str "post")])])]])]

/-- The Game `normalizeESPNGames` produces for `c10Payload`. -/
def c10Game : Game :=
  { id := .undefined, status := .undefined, statusCode := .int 3, clock := .undefined,
    isLive := false,
    home := { id := .str "7", tricode := .undefined, name := .undefined, logo := .str "",
              score := .int 90, wins := .null, losses := .null },
    away := { id := .str "8", tricode := .undefined, name := .undefined, logo := .str "",
              score := .int 80, wins := .null, losses := .null },
    leaders := some (none, none) }

theorem C10_witness :
    c10Game.home.wins = .null ∧ c10Game.home.losses = .null ∧
    c10Game.away.wins = .null ∧ c10Game.away.losses = .null :=
  C10_espn_records_null c10Payload [c10Game] rfl c10Game
    (List.mem_singleton.mpr rfl)
